import Mathlib

/-!
Verification of the fair-play randomness-and-settlement engine of the
agent-casino on-chain program (programs/agent_casino/src/lib.rs).

The Rust instruction handlers are shallowly embedded as pure Lean
functions.  Machine integers are modelled as `Nat` with explicit bounds:
`u64Max`/`u128Max` stand for the largest representable values, Rust's
`checked_*` operations become explicit bound tests that return a
`CasinoError` (a failed instruction aborts the whole transaction, so an
`Except.error` result models "no state change"), `saturating_mul` becomes
`min _ u128Max`, and `checked_sub(..).unwrap_or(0)` is exactly truncated
`Nat` subtraction.  Lamport balances of the accounts involved are carried
explicitly; Anchor account constraints (which are evaluated before the
instruction body) appear as the leading guards of each function.
Account identity (`Pubkey` equality) constraints between the passed
accounts are resolved by the runtime and are outside this single-pool,
single-request model; the SHA-256 digest function used by the PvP
challenge path lives in an external crate and is modelled as an explicit
function parameter.
-/

namespace AgentCasino

/-- Largest value representable in a `u64`. -/
def u64Max : Nat := 2 ^ 64 - 1

/-- Largest value representable in a `u128`. -/
def u128Max : Nat := 2 ^ 128 - 1

/-- Largest value representable in a `u32` (`u32::MAX`, the divisor used by
the continuous outcome mappers). -/
def u32Max : Nat := 4294967295

/-- Error codes of the program (`CasinoError` in lib.rs), restricted to the
variants reachable from the settlement engine, plus `InsufficientFunds`,
which models a failing system-program lamport transfer. -/
inductive CasinoError where
  | BetTooSmall
  | BetTooLarge
  | InsufficientLiquidity
  | InvalidChoice
  | InvalidMultiplier
  | InvalidTarget
  | MathOverflow
  | VrfAlreadySettled
  | VrfNotExpired
  | VrfRandomnessNotReady
  | VrfInvalidRandomness
  | ChallengeNotOpen
  | CannotAcceptOwnChallenge
  | InsufficientFunds
deriving DecidableEq, Repr

/-- Status of a VRF request (`VrfStatus` in lib.rs). -/
inductive VrfStatus where
  | Pending
  | Settled
  | Expired
deriving DecidableEq, Repr

/-- Game kind tag (`GameType` in lib.rs). -/
inductive GameType where
  | CoinFlip
  | DiceRoll
  | Limbo
  | PvPChallenge
  | Crash
deriving DecidableEq, Repr

/-- The house pool account (`House` in lib.rs); the `authority` and `bump`
fields are key-derivation plumbing and carry no settlement logic. -/
structure House where
  pool : Nat
  house_edge_bps : Nat
  min_bet : Nat
  max_bet_percent : Nat
  total_games : Nat
  total_volume : Nat
  total_payout : Nat
deriving DecidableEq, Repr

/-- A pending VRF game record (`VrfRequest` in lib.rs); the three `Pubkey`
fields are identity plumbing checked by Anchor constraints and are not part
of the settlement arithmetic. -/
structure VrfRequest where
  game_type : GameType
  amount : Nat
  choice : Nat
  target_multiplier : Nat
  status : VrfStatus
  created_at : Nat
  settled_at : Nat
  result : Nat
  payout : Nat
  game_index : Nat
  request_slot : Nat
deriving DecidableEq, Repr

/-- Per-player statistics account (`AgentStats` in lib.rs). -/
structure AgentStats where
  total_games : Nat
  total_wagered : Nat
  total_won : Nat
  wins : Nat
  losses : Nat
  pvp_games : Nat
  pvp_wins : Nat
deriving DecidableEq, Repr

/-- `calculate_payout` from lib.rs: gross and edge are computed in `u128`
with `saturating_mul` (modelled by `min _ u128Max`), narrowed to `u64` by an
explicit cap at `u64::MAX`, and combined with `checked_sub(..).unwrap_or(0)`
(which is exactly truncated `Nat` subtraction). -/
def calculate_payout (amount multiplier house_edge_bps : Nat) : Nat :=
  let gross_128 := min (amount * multiplier) u128Max / 100
  let gross := if u64Max < gross_128 then u64Max else gross_128
  let edge_128 := min (gross * house_edge_bps) u128Max / 10000
  let edge := if u64Max < edge_128 then u64Max else edge_128
  gross - edge

/-- `calculate_limbo_result` from lib.rs: fixed-point inverse transform of a
32-bit word, clamped into `[100, 10000]`.  `saturating_sub` on `u128` is
truncated `Nat` subtraction. -/
def calculate_limbo_result (raw house_edge_bps : Nat) : Nat :=
  let normalized_bps := raw * 9900 / u32Max
  let denominator := 10000 - normalized_bps
  if denominator = 0 then 10000
  else
    let edge_factor := 10000 - house_edge_bps
    let result := edge_factor * 100 / denominator
    max (min result 10000) 100

/-- `calculate_crash_point` from lib.rs: identical to the limbo transform
except that the small-denominator guard fires below 10 instead of at 0. -/
def calculate_crash_point (raw house_edge_bps : Nat) : Nat :=
  let normalized_bps := raw * 9900 / u32Max
  let denominator := 10000 - normalized_bps
  if denominator < 10 then 10000
  else
    let edge_factor := 10000 - house_edge_bps
    let result := edge_factor * 100 / denominator
    max (min result 10000) 100

/-- Little-endian reconstruction of a `u32` from the first four bytes of a
randomness value (`u32::from_le_bytes` on `randomness[0..4]`). -/
def u32_from_le_bytes (bs : List Nat) : Nat :=
  bs.getD 0 0 + bs.getD 1 0 * 256 + bs.getD 2 0 * 65536 + bs.getD 3 0 * 16777216

/-- Result of `RandomnessAccountData::parse` followed by `get_value(slot)`
on the Switchboard randomness account: parsing can fail (`invalid`), the
value can be unrevealed for the current slot (`notReady`), or the 32-byte
random value is available. -/
inductive OracleResult where
  | invalid
  | notReady
  | value (bytes : List Nat)
deriving DecidableEq, Repr

deriving instance DecidableEq for Except

/-- The accounts touched by a VRF settle or expire instruction: the house
pool account (data plus lamports), the request record, the player's stats
account and the player's lamport balance. -/
structure SettleState where
  house : House
  req : VrfRequest
  stats : AgentStats
  house_lamports : Nat
  player_lamports : Nat
deriving DecidableEq, Repr

/-- The accounts produced by a VRF request instruction (no stats account is
involved at request time). -/
structure RequestOut where
  house : House
  req : VrfRequest
  house_lamports : Nat
  player_lamports : Nat
deriving DecidableEq, Repr

/-- Transactional semantics of an instruction: on error the runtime rolls
every write back, so the pre-state survives; on success the new state is
committed. -/
def commit (s : SettleState) (r : Except CasinoError SettleState) : SettleState :=
  match r with
  | .ok t => t
  | .error _ => s

/-- The committed post-state of a successful VRF settlement: the payout
lamports move house → player on a win, the pool counter absorbs the stake
on a loss and pays the net loss on a win, the stats record the game, and
the request is finalized as `Settled`. -/
def settle_new_state (s : SettleState) (won : Bool) (payout result ts : Nat) : SettleState :=
  { house := { s.house with
      total_payout := if won then s.house.total_payout + payout else s.house.total_payout,
      pool := if won then s.house.pool - (payout - s.req.amount)
              else s.house.pool + s.req.amount },
    req := { s.req with
      status := .Settled, settled_at := ts, result := result, payout := payout },
    stats := { s.stats with
      total_games := s.stats.total_games + 1,
      total_wagered := s.stats.total_wagered + s.req.amount,
      total_won := if won then s.stats.total_won + payout else s.stats.total_won,
      wins := if won then s.stats.wins + 1 else s.stats.wins,
      losses := if won then s.stats.losses else s.stats.losses + 1 },
    house_lamports := if won = true ∧ 0 < payout then s.house_lamports - payout
                      else s.house_lamports,
    player_lamports := if won = true ∧ 0 < payout then s.player_lamports + payout
                       else s.player_lamports }

/-- Shared tail of the four VRF settle handlers (the payout transfer, the
pool/counter update, the stats update and the record finalization are
textually identical in lib.rs).  `checked_add`/`checked_sub` failures and a
failing lamport transfer surface as errors, in source order: the lamport
transfer runs first, then the house update, then the stats update. -/
def apply_settle_outcome (s : SettleState) (won : Bool) (payout result ts : Nat) :
    Except CasinoError SettleState :=
  if won = true ∧ 0 < payout ∧ s.house_lamports < payout then .error .InsufficientFunds else
  if won = true ∧ u64Max < s.house.total_payout + payout then .error .MathOverflow else
  if won = true ∧ payout < s.req.amount then .error .MathOverflow else
  if won = true ∧ s.house.pool < payout - s.req.amount then .error .MathOverflow else
  if won = false ∧ u64Max < s.house.pool + s.req.amount then .error .MathOverflow else
  if u64Max < s.stats.total_games + 1 then .error .MathOverflow else
  if u64Max < s.stats.total_wagered + s.req.amount then .error .MathOverflow else
  if won = true ∧ u64Max < s.stats.total_won + payout then .error .MathOverflow else
  if won = true ∧ u64Max < s.stats.wins + 1 then .error .MathOverflow else
  if won = false ∧ u64Max < s.stats.losses + 1 then .error .MathOverflow else
  .ok (settle_new_state s won payout result ts)

/-- `vrf_coin_flip_settle` from lib.rs.  The two leading guards are the
Anchor account constraints of `VrfCoinFlipSettle` (game type, then status),
evaluated before the instruction body; the oracle is then consulted, the
first randomness byte decides the flip, and the shared settlement tail
runs. -/
def vrf_coin_flip_settle (s : SettleState) (oracle : OracleResult) (ts : Nat) :
    Except CasinoError SettleState :=
  if s.req.game_type ≠ GameType.CoinFlip then .error .VrfInvalidRandomness else
  if s.req.status ≠ VrfStatus.Pending then .error .VrfAlreadySettled else
  match oracle with
  | .invalid => .error .VrfInvalidRandomness
  | .notReady => .error .VrfRandomnessNotReady
  | .value randomness =>
    let result := randomness.headD 0 % 2
    let won := result == s.req.choice
    let payout := if won then calculate_payout s.req.amount 200 s.house.house_edge_bps else 0
    apply_settle_outcome s won payout result ts

/-- `vrf_dice_roll_settle` from lib.rs: four randomness bytes give the roll,
the stored target is re-validated, the multiplier is `600 / target`
(`checked_div`, which cannot fail once `1 ≤ target`). -/
def vrf_dice_roll_settle (s : SettleState) (oracle : OracleResult) (ts : Nat) :
    Except CasinoError SettleState :=
  if s.req.game_type ≠ GameType.DiceRoll then .error .VrfInvalidRandomness else
  if s.req.status ≠ VrfStatus.Pending then .error .VrfAlreadySettled else
  match oracle with
  | .invalid => .error .VrfInvalidRandomness
  | .notReady => .error .VrfRandomnessNotReady
  | .value randomness =>
    let raw := u32_from_le_bytes randomness
    let result := raw % 6 + 1
    let won := decide (result ≤ s.req.choice)
    if s.req.choice < 1 ∨ 5 < s.req.choice then .error .InvalidChoice else
    let multiplier := 600 / s.req.choice
    let payout := if won then calculate_payout s.req.amount multiplier s.house.house_edge_bps
                  else 0
    apply_settle_outcome s won payout result ts

/-- `vrf_limbo_settle` from lib.rs: the outcome multiplier comes from
`calculate_limbo_result`; on a win the payout is `amount * target / 100`
computed in `u128` and required (`require!`) to fit in a `u64`. -/
def vrf_limbo_settle (s : SettleState) (oracle : OracleResult) (ts : Nat) :
    Except CasinoError SettleState :=
  if s.req.game_type ≠ GameType.Limbo then .error .VrfInvalidRandomness else
  if s.req.status ≠ VrfStatus.Pending then .error .VrfAlreadySettled else
  match oracle with
  | .invalid => .error .VrfInvalidRandomness
  | .notReady => .error .VrfRandomnessNotReady
  | .value randomness =>
    let raw := u32_from_le_bytes randomness
    let result_multiplier := calculate_limbo_result raw s.house.house_edge_bps
    let won := decide (s.req.target_multiplier ≤ result_multiplier)
    if won = true ∧ u64Max < s.req.amount * s.req.target_multiplier / 100 then
      .error .MathOverflow else
    let payout := if won then s.req.amount * s.req.target_multiplier / 100 else 0
    apply_settle_outcome s won payout (result_multiplier / 100) ts

/-- `vrf_crash_settle` from lib.rs: identical to limbo settlement but the
outcome comes from `calculate_crash_point`. -/
def vrf_crash_settle (s : SettleState) (oracle : OracleResult) (ts : Nat) :
    Except CasinoError SettleState :=
  if s.req.game_type ≠ GameType.Crash then .error .VrfInvalidRandomness else
  if s.req.status ≠ VrfStatus.Pending then .error .VrfAlreadySettled else
  match oracle with
  | .invalid => .error .VrfInvalidRandomness
  | .notReady => .error .VrfRandomnessNotReady
  | .value randomness =>
    let raw := u32_from_le_bytes randomness
    let crash_point := calculate_crash_point raw s.house.house_edge_bps
    let won := decide (s.req.target_multiplier ≤ crash_point)
    if won = true ∧ u64Max < s.req.amount * s.req.target_multiplier / 100 then
      .error .MathOverflow else
    let payout := if won then s.req.amount * s.req.target_multiplier / 100 else 0
    apply_settle_outcome s won payout (crash_point / 100) ts

/-- `expire_vrf_request` from lib.rs: requires the record to still be
`Pending` (both the Anchor constraint and the body `require!` raise
`VrfAlreadySettled`), requires at least 300 slots since `request_slot`
(`checked_sub` fails with `MathOverflow` for a slot before the request,
`require!` raises `VrfNotExpired` below 300), then refunds exactly the
original stake from house lamports to the player and marks the record
`Expired`.  The `house` data account (the pool counter included) is not
written. -/
def expire_vrf_request (s : SettleState) (slot ts : Nat) :
    Except CasinoError SettleState :=
  if s.req.status ≠ VrfStatus.Pending then .error .VrfAlreadySettled else
  if slot < s.req.request_slot then .error .MathOverflow else
  if slot - s.req.request_slot < 300 then .error .VrfNotExpired else
  if s.house_lamports < s.req.amount then .error .InsufficientFunds else
  .ok { s with
        house_lamports := s.house_lamports - s.req.amount,
        player_lamports := s.player_lamports + s.req.amount,
        req := { s.req with status := .Expired, settled_at := ts } }

/-- The committed post-state of a successful VRF request: the stake has
moved player → house as lamports, the request record is created `Pending`,
and only the games/volume counters of the house advance. -/
def request_new_state (house : House) (hl pl amount slot ts : Nat)
    (gt : GameType) (choice target_multiplier : Nat) : RequestOut :=
  { house := { house with
      total_games := house.total_games + 1,
      total_volume := house.total_volume + amount },
    req := { game_type := gt, amount := amount, choice := choice,
             target_multiplier := target_multiplier, status := .Pending, created_at := ts,
             settled_at := 0, result := 0, payout := 0,
             game_index := house.total_games, request_slot := slot },
    house_lamports := hl + amount,
    player_lamports := pl - amount }

/-- `vrf_coin_flip_request` from lib.rs.  Guards in source order: choice
validity, `min_bet`, the `checked_mul` computing the max-bet cap, the
max-bet cap itself, the worst-case-payout liquidity check, the lamport
transfer of the stake into the house account, and the checked counter
updates.  The request record is created `Pending` and the pool counter is
not touched. -/
def vrf_coin_flip_request (house : House)
    (house_lamports player_lamports amount choice slot ts : Nat) :
    Except CasinoError RequestOut :=
  if 1 < choice then .error .InvalidChoice else
  if amount < house.min_bet then .error .BetTooSmall else
  if u64Max < house.pool * house.max_bet_percent then .error .MathOverflow else
  if house.pool * house.max_bet_percent / 100 < amount then .error .BetTooLarge else
  if house.pool < calculate_payout amount 200 house.house_edge_bps then
    .error .InsufficientLiquidity else
  if player_lamports < amount then .error .InsufficientFunds else
  if u64Max < house.total_games + 1 then .error .MathOverflow else
  if u64Max < house.total_volume + amount then .error .MathOverflow else
  .ok (request_new_state house house_lamports player_lamports amount slot ts
        GameType.CoinFlip choice 0)

/-- `vrf_dice_roll_request` from lib.rs: like the coin-flip request with a
target in `[1, 5]` and worst-case payout `calculate_payout amount (600 /
target) edge`. -/
def vrf_dice_roll_request (house : House)
    (house_lamports player_lamports amount target slot ts : Nat) :
    Except CasinoError RequestOut :=
  if target < 1 ∨ 5 < target then .error .InvalidTarget else
  if amount < house.min_bet then .error .BetTooSmall else
  if u64Max < house.pool * house.max_bet_percent then .error .MathOverflow else
  if house.pool * house.max_bet_percent / 100 < amount then .error .BetTooLarge else
  if house.pool < calculate_payout amount (600 / target) house.house_edge_bps then
    .error .InsufficientLiquidity else
  if player_lamports < amount then .error .InsufficientFunds else
  if u64Max < house.total_games + 1 then .error .MathOverflow else
  if u64Max < house.total_volume + amount then .error .MathOverflow else
  .ok (request_new_state house house_lamports player_lamports amount slot ts
        GameType.DiceRoll target 0)

/-- `vrf_limbo_request` from lib.rs: target multiplier in `[101, 10000]`,
worst-case payout `amount * target / 100` computed in `u128` (the
`checked_mul` cannot overflow a `u128` for `u64`/`u16` inputs) and compared
against the pool. -/
def vrf_limbo_request (house : House)
    (house_lamports player_lamports amount target_multiplier slot ts : Nat) :
    Except CasinoError RequestOut :=
  if target_multiplier < 101 ∨ 10000 < target_multiplier then .error .InvalidMultiplier else
  if amount < house.min_bet then .error .BetTooSmall else
  if u64Max < house.pool * house.max_bet_percent then .error .MathOverflow else
  if house.pool * house.max_bet_percent / 100 < amount then .error .BetTooLarge else
  if house.pool < amount * target_multiplier / 100 then .error .InsufficientLiquidity else
  if player_lamports < amount then .error .InsufficientFunds else
  if u64Max < house.total_games + 1 then .error .MathOverflow else
  if u64Max < house.total_volume + amount then .error .MathOverflow else
  .ok (request_new_state house house_lamports player_lamports amount slot ts
        GameType.Limbo 0 target_multiplier)

/-- `vrf_crash_request` from lib.rs: identical admission logic to the limbo
request, tagged `Crash`. -/
def vrf_crash_request (house : House)
    (house_lamports player_lamports amount cashout_multiplier slot ts : Nat) :
    Except CasinoError RequestOut :=
  if cashout_multiplier < 101 ∨ 10000 < cashout_multiplier then .error .InvalidMultiplier else
  if amount < house.min_bet then .error .BetTooSmall else
  if u64Max < house.pool * house.max_bet_percent then .error .MathOverflow else
  if house.pool * house.max_bet_percent / 100 < amount then .error .BetTooLarge else
  if house.pool < amount * cashout_multiplier / 100 then .error .InsufficientLiquidity else
  if player_lamports < amount then .error .InsufficientFunds else
  if u64Max < house.total_games + 1 then .error .MathOverflow else
  if u64Max < house.total_volume + amount then .error .MathOverflow else
  .ok (request_new_state house house_lamports player_lamports amount slot ts
        GameType.Crash 0 cashout_multiplier)

/-- A public key, modelled as its 32 raw bytes (`Pubkey::to_bytes`). -/
abbrev Pubkey := List Nat

/-- Little-endian byte encoding of a 64-bit word (`u64::to_le_bytes`; the
`i64` timestamp is non-negative on chain, where the two encodings agree). -/
def u64_to_le_bytes (n : Nat) : List Nat :=
  [n % 256, n / 256 % 256, n / 65536 % 256, n / 16777216 % 256,
   n / 4294967296 % 256, n / 1099511627776 % 256,
   n / 281474976710656 % 256, n / 72057594037927936 % 256]

/-- `generate_seed` from lib.rs: digest of player key, slot, timestamp and
a context key.  The SHA-256 digest itself lives in the external
`solana_sha256_hasher` crate, so it is taken as an explicit function
parameter; every theorem below holds for an arbitrary digest function. -/
def generate_seed (hashFn : List Nat → List Nat) (player : Pubkey)
    (slot ts : Nat) (house : Pubkey) : List Nat :=
  hashFn (player ++ u64_to_le_bytes slot ++ u64_to_le_bytes ts ++ house)

/-- `combine_seeds` from lib.rs: digest of server seed, client seed and the
player key, with the same external digest function. -/
def combine_seeds (hashFn : List Nat → List Nat) (server client : List Nat)
    (player : Pubkey) : List Nat :=
  hashFn (server ++ client ++ player)

/-- Status of a PvP challenge (`ChallengeStatus` in lib.rs). -/
inductive ChallengeStatus where
  | Open
  | Completed
  | Cancelled
deriving DecidableEq, Repr

/-- A PvP coin-flip challenge record (`Challenge` in lib.rs). -/
structure Challenge where
  challenger : Pubkey
  acceptor : Pubkey
  amount : Nat
  choice : Nat
  status : ChallengeStatus
  result : Nat
  winner : Pubkey
  server_seed : List Nat
  client_seed : List Nat
  created_at : Nat
  completed_at : Nat
deriving DecidableEq, Repr

/-- The accounts touched by `accept_challenge`: the challenge record (with
its key, which seeds the server entropy) and escrow lamports, the house,
and both players' stats accounts and lamport balances. -/
structure ChallengeCtx where
  challenge : Challenge
  challenge_key : Pubkey
  house : House
  challenger_stats : AgentStats
  acceptor_stats : AgentStats
  challenge_lamports : Nat
  house_lamports : Nat
  challenger_lamports : Nat
  acceptor_lamports : Nat
deriving DecidableEq, Repr

/-- The total pot of an accepted challenge: both stakes
(`amount.checked_mul(2)` in lib.rs). -/
def accept_total_pot (c : ChallengeCtx) : Nat := c.challenge.amount * 2

/-- The house's cut of the pot: `total_pot * edge_bps / 10000`. -/
def accept_house_take (c : ChallengeCtx) : Nat :=
  accept_total_pot c * c.house.house_edge_bps / 10000

/-- The winner's payout: the pot net of the house take. -/
def accept_winner_payout (c : ChallengeCtx) : Nat :=
  accept_total_pot c - accept_house_take c

/-- The coin-flip outcome of an accepted challenge: byte 0 of the digest
mixing the server seed (derived from the acceptor, the clock and the
challenge key) with the client seed and the challenger key, taken mod 2. -/
def accept_flip_result (hashFn : List Nat → List Nat) (c : ChallengeCtx)
    (acceptor : Pubkey) (client_seed : List Nat) (slot ts : Nat) : Nat :=
  (combine_seeds hashFn (generate_seed hashFn acceptor slot ts c.challenge_key)
    client_seed c.challenge.challenger).headD 0 % 2

/-- Whether the challenger won the flip: the mixed outcome equals the
challenger's recorded choice. -/
def accept_challenger_won (hashFn : List Nat → List Nat) (c : ChallengeCtx)
    (acceptor : Pubkey) (client_seed : List Nat) (slot ts : Nat) : Bool :=
  accept_flip_result hashFn c acceptor client_seed slot ts == c.challenge.choice

/-- The committed post-state of a successful `accept_challenge`: the
record stores the seeds and the outcome, the house keeps its take, the
winner receives the pot net of the take, and both stats accounts record
the game. -/
def accept_new_state (c : ChallengeCtx) (acceptor : Pubkey)
    (server_seed client_seed : List Nat) (result : Nat) (challenger_won : Bool)
    (total_pot house_take winner_payout ts : Nat) : ChallengeCtx :=
  { challenge := { c.challenge with
      status := .Completed, acceptor := acceptor,
      winner := if challenger_won then c.challenge.challenger else acceptor,
      result := result, server_seed := server_seed, client_seed := client_seed,
      completed_at := ts },
    challenge_key := c.challenge_key,
    house := { c.house with
      total_games := c.house.total_games + 1,
      total_volume := c.house.total_volume + total_pot,
      pool := c.house.pool + house_take },
    challenger_stats := { c.challenger_stats with
      total_games := c.challenger_stats.total_games + 1,
      total_wagered := c.challenger_stats.total_wagered + c.challenge.amount,
      pvp_games := c.challenger_stats.pvp_games + 1,
      total_won := if challenger_won then c.challenger_stats.total_won + winner_payout
                   else c.challenger_stats.total_won,
      wins := if challenger_won then c.challenger_stats.wins + 1
              else c.challenger_stats.wins,
      pvp_wins := if challenger_won then c.challenger_stats.pvp_wins + 1
                  else c.challenger_stats.pvp_wins,
      losses := if challenger_won then c.challenger_stats.losses
                else c.challenger_stats.losses + 1 },
    acceptor_stats := { c.acceptor_stats with
      total_games := c.acceptor_stats.total_games + 1,
      total_wagered := c.acceptor_stats.total_wagered + c.challenge.amount,
      pvp_games := c.acceptor_stats.pvp_games + 1,
      total_won := if challenger_won then c.acceptor_stats.total_won
                   else c.acceptor_stats.total_won + winner_payout,
      wins := if challenger_won then c.acceptor_stats.wins
              else c.acceptor_stats.wins + 1,
      pvp_wins := if challenger_won then c.acceptor_stats.pvp_wins
                  else c.acceptor_stats.pvp_wins + 1,
      losses := if challenger_won then c.acceptor_stats.losses + 1
                else c.acceptor_stats.losses },
    challenge_lamports := c.challenge_lamports + c.challenge.amount - house_take
                          - winner_payout,
    house_lamports := c.house_lamports + house_take,
    challenger_lamports := if challenger_won
      then c.challenger_lamports + winner_payout else c.challenger_lamports,
    acceptor_lamports := if challenger_won
      then c.acceptor_lamports - c.challenge.amount
      else c.acceptor_lamports - c.challenge.amount + winner_payout }

/-- `accept_challenge` from lib.rs: the acceptor matches the stake into the
challenge escrow, the seeds are mixed, the first combined byte mod 2
decides the flip, the house takes `total_pot * edge_bps / 10000` and the
winner receives the rest; the record stores the seeds and the outcome.
Checked arithmetic and lamport moves fail in source order. -/
def accept_challenge (hashFn : List Nat → List Nat) (c : ChallengeCtx)
    (acceptor : Pubkey) (client_seed : List Nat) (slot ts : Nat) :
    Except CasinoError ChallengeCtx :=
  if c.challenge.status ≠ ChallengeStatus.Open then .error .ChallengeNotOpen else
  if c.challenge.challenger = acceptor then .error .CannotAcceptOwnChallenge else
  if c.acceptor_lamports < c.challenge.amount then .error .InsufficientFunds else
  if u64Max < c.challenge.amount * 2 then .error .MathOverflow else
  if u64Max < accept_total_pot c * c.house.house_edge_bps then .error .MathOverflow else
  if accept_total_pot c < accept_house_take c then .error .MathOverflow else
  if c.challenge_lamports + c.challenge.amount < accept_house_take c then
    .error .InsufficientFunds else
  if c.challenge_lamports + c.challenge.amount - accept_house_take c
       < accept_winner_payout c then .error .InsufficientFunds else
  if u64Max < c.house.total_games + 1 then .error .MathOverflow else
  if u64Max < c.house.total_volume + accept_total_pot c then .error .MathOverflow else
  if u64Max < c.house.pool + accept_house_take c then .error .MathOverflow else
  if u64Max < c.challenger_stats.total_games + 1 then .error .MathOverflow else
  if u64Max < c.challenger_stats.total_wagered + c.challenge.amount then
    .error .MathOverflow else
  if u64Max < c.challenger_stats.pvp_games + 1 then .error .MathOverflow else
  if accept_challenger_won hashFn c acceptor client_seed slot ts = true
       ∧ u64Max < c.challenger_stats.total_won + accept_winner_payout c then
    .error .MathOverflow else
  if accept_challenger_won hashFn c acceptor client_seed slot ts = true
       ∧ u64Max < c.challenger_stats.wins + 1 then
    .error .MathOverflow else
  if accept_challenger_won hashFn c acceptor client_seed slot ts = true
       ∧ u64Max < c.challenger_stats.pvp_wins + 1 then
    .error .MathOverflow else
  if accept_challenger_won hashFn c acceptor client_seed slot ts = false
       ∧ u64Max < c.challenger_stats.losses + 1 then
    .error .MathOverflow else
  if u64Max < c.acceptor_stats.total_games + 1 then .error .MathOverflow else
  if u64Max < c.acceptor_stats.total_wagered + c.challenge.amount then
    .error .MathOverflow else
  if u64Max < c.acceptor_stats.pvp_games + 1 then .error .MathOverflow else
  if accept_challenger_won hashFn c acceptor client_seed slot ts = false
       ∧ u64Max < c.acceptor_stats.total_won + accept_winner_payout c then
    .error .MathOverflow else
  if accept_challenger_won hashFn c acceptor client_seed slot ts = false
       ∧ u64Max < c.acceptor_stats.wins + 1 then
    .error .MathOverflow else
  if accept_challenger_won hashFn c acceptor client_seed slot ts = false
       ∧ u64Max < c.acceptor_stats.pvp_wins + 1 then
    .error .MathOverflow else
  if accept_challenger_won hashFn c acceptor client_seed slot ts = true
       ∧ u64Max < c.acceptor_stats.losses + 1 then
    .error .MathOverflow else
  .ok (accept_new_state c acceptor (generate_seed hashFn acceptor slot ts c.challenge_key)
        client_seed (accept_flip_result hashFn c acceptor client_seed slot ts)
        (accept_challenger_won hashFn c acceptor client_seed slot ts)
        (accept_total_pot c) (accept_house_take c)
        (accept_winner_payout c) ts)

/-- A successful run of the shared settlement tail commits exactly
`settle_new_state`. -/
theorem apply_settle_outcome_ok {s : SettleState} {won : Bool} {payout result ts : Nat}
    {t : SettleState} (h : apply_settle_outcome s won payout result ts = .ok t) :
    t = settle_new_state s won payout result ts := by
  simp only [apply_settle_outcome] at h
  repeat' split at h
  all_goals
    first
      | exact Except.noConfusion h
      | (injection h with h2; exact h2.symm)

/-- A successful coin-flip settle consumed a `Pending` coin-flip record and
an available random value, and committed the settled post-state determined
by the first randomness byte. -/
theorem coin_settle_value_ok {s : SettleState} {bs : List Nat} {ts : Nat} {t : SettleState}
    (h : vrf_coin_flip_settle s (.value bs) ts = .ok t) :
    s.req.status = VrfStatus.Pending ∧ s.req.game_type = GameType.CoinFlip ∧
    t = settle_new_state s (bs.headD 0 % 2 == s.req.choice)
          (if bs.headD 0 % 2 == s.req.choice
           then calculate_payout s.req.amount 200 s.house.house_edge_bps else 0)
          (bs.headD 0 % 2) ts := by
  simp only [vrf_coin_flip_settle] at h
  repeat' split at h
  all_goals
    first
      | exact Except.noConfusion h
      | (refine ⟨by simp_all, by simp_all, ?_⟩
         rw [apply_settle_outcome_ok h]
         simp_all)

/-- A successful coin-flip settle, for any oracle outcome, consumed a
`Pending` record and finalized it as `Settled`. -/
theorem coin_settle_ok_status {s : SettleState} {oracle : OracleResult} {ts : Nat}
    {t : SettleState} (h : vrf_coin_flip_settle s oracle ts = .ok t) :
    s.req.status = VrfStatus.Pending ∧ t.req.status = VrfStatus.Settled := by
  simp only [vrf_coin_flip_settle] at h
  repeat' split at h
  all_goals
    first
      | exact Except.noConfusion h
      | (refine ⟨by simp_all, ?_⟩
         rw [apply_settle_outcome_ok h]
         rfl)

/-- A successful dice settle consumed a `Pending` record and finalized it
as `Settled`. -/
theorem dice_settle_ok_status {s : SettleState} {oracle : OracleResult} {ts : Nat}
    {t : SettleState} (h : vrf_dice_roll_settle s oracle ts = .ok t) :
    s.req.status = VrfStatus.Pending ∧ t.req.status = VrfStatus.Settled := by
  simp only [vrf_dice_roll_settle] at h
  repeat' split at h
  all_goals
    first
      | exact Except.noConfusion h
      | (refine ⟨by simp_all, ?_⟩
         rw [apply_settle_outcome_ok h]
         rfl)

/-- A successful limbo settle consumed a `Pending` record and finalized it
as `Settled`. -/
theorem limbo_settle_ok_status {s : SettleState} {oracle : OracleResult} {ts : Nat}
    {t : SettleState} (h : vrf_limbo_settle s oracle ts = .ok t) :
    s.req.status = VrfStatus.Pending ∧ t.req.status = VrfStatus.Settled := by
  simp only [vrf_limbo_settle] at h
  repeat' split at h
  all_goals
    first
      | exact Except.noConfusion h
      | (refine ⟨by simp_all, ?_⟩
         rw [apply_settle_outcome_ok h]
         rfl)

/-- A successful crash settle consumed a `Pending` record and finalized it
as `Settled`. -/
theorem crash_settle_ok_status {s : SettleState} {oracle : OracleResult} {ts : Nat}
    {t : SettleState} (h : vrf_crash_settle s oracle ts = .ok t) :
    s.req.status = VrfStatus.Pending ∧ t.req.status = VrfStatus.Settled := by
  simp only [vrf_crash_settle] at h
  repeat' split at h
  all_goals
    first
      | exact Except.noConfusion h
      | (refine ⟨by simp_all, ?_⟩
         rw [apply_settle_outcome_ok h]
         rfl)

/-- A successful expire consumed a `Pending` record past its liveness
window and committed exactly the refund-and-mark-expired state. -/
theorem expire_ok_status {s : SettleState} {slot ts : Nat} {t : SettleState}
    (h : expire_vrf_request s slot ts = .ok t) :
    s.req.status = VrfStatus.Pending ∧ t.req.status = VrfStatus.Expired ∧
    s.req.request_slot ≤ slot ∧ 300 ≤ slot - s.req.request_slot ∧
    t.house = s.house ∧ t.stats = s.stats ∧
    t.house_lamports = s.house_lamports - s.req.amount ∧
    t.player_lamports = s.player_lamports + s.req.amount ∧
    t.req.amount = s.req.amount := by
  simp only [expire_vrf_request] at h
  repeat' split at h
  all_goals
    first
      | exact Except.noConfusion h
      | (injection h with h5
         subst h5
         exact ⟨by simp_all, rfl, by omega, by omega, rfl, rfl, rfl, rfl, rfl⟩)

/-- A coin-flip VRF request backed by a healthy pool, still `Pending`
(the Scenario A configuration: pool 1,000,000, min bet 1,000, max-bet 2 %,
edge 100 bps, stake 10,000). -/
def pending_coin_state : SettleState :=
  { house := { pool := 1000000, house_edge_bps := 100, min_bet := 1000, max_bet_percent := 2,
               total_games := 5, total_volume := 50000, total_payout := 20000 },
    req := { game_type := .CoinFlip, amount := 10000, choice := 0, target_multiplier := 0,
             status := .Pending, created_at := 1, settled_at := 0, result := 0,
             payout := 0, game_index := 4, request_slot := 100 },
    stats := { total_games := 3, total_wagered := 30000, total_won := 19800, wins := 1,
               losses := 2, pvp_games := 0, pvp_wins := 0 },
    house_lamports := 2000000, player_lamports := 500 }

/-- The same record after settlement, used to exercise the second-attempt
guards. -/
def settled_coin_state : SettleState :=
  { pending_coin_state with
    req := { pending_coin_state.req with status := .Settled, settled_at := 2, payout := 19800 } }

/-- An all-zero 32-byte randomness value (first byte 0 ⇒ coin-flip result
0). -/
def zero_randomness : List Nat := List.replicate 32 0

/-- C1: for every VRF request record, at most one of Settle and Expire ever
succeeds: each of the four settle instructions and `expire_vrf_request`
requires the record's status to be `Pending` before acting and moves it to
a terminal status (`Settled` or `Expired`), so a second attempt at either
operation on the same record fails with the state-precondition error
`VrfAlreadySettled` and, the transaction aborting, changes nothing. -/
theorem settle_expire_mutually_exclusive (s t : SettleState) (oracle : OracleResult)
    (ts slot : Nat) :
    (vrf_coin_flip_settle s oracle ts = .ok t →
       s.req.status = VrfStatus.Pending ∧ t.req.status = VrfStatus.Settled) ∧
    (vrf_dice_roll_settle s oracle ts = .ok t →
       s.req.status = VrfStatus.Pending ∧ t.req.status = VrfStatus.Settled) ∧
    (vrf_limbo_settle s oracle ts = .ok t →
       s.req.status = VrfStatus.Pending ∧ t.req.status = VrfStatus.Settled) ∧
    (vrf_crash_settle s oracle ts = .ok t →
       s.req.status = VrfStatus.Pending ∧ t.req.status = VrfStatus.Settled) ∧
    (expire_vrf_request s slot ts = .ok t →
       s.req.status = VrfStatus.Pending ∧ t.req.status = VrfStatus.Expired) ∧
    (s.req.status ≠ VrfStatus.Pending →
       (s.req.game_type = GameType.CoinFlip →
          vrf_coin_flip_settle s oracle ts = .error .VrfAlreadySettled) ∧
       (s.req.game_type = GameType.DiceRoll →
          vrf_dice_roll_settle s oracle ts = .error .VrfAlreadySettled) ∧
       (s.req.game_type = GameType.Limbo →
          vrf_limbo_settle s oracle ts = .error .VrfAlreadySettled) ∧
       (s.req.game_type = GameType.Crash →
          vrf_crash_settle s oracle ts = .error .VrfAlreadySettled) ∧
       expire_vrf_request s slot ts = .error .VrfAlreadySettled ∧
       commit s (vrf_coin_flip_settle s oracle ts) = s ∧
       commit s (vrf_dice_roll_settle s oracle ts) = s ∧
       commit s (vrf_limbo_settle s oracle ts) = s ∧
       commit s (vrf_crash_settle s oracle ts) = s ∧
       commit s (expire_vrf_request s slot ts) = s) := by
  refine ⟨fun h => coin_settle_ok_status h, fun h => dice_settle_ok_status h,
    fun h => limbo_settle_ok_status h, fun h => crash_settle_ok_status h,
    fun h => ⟨(expire_ok_status h).1, (expire_ok_status h).2.1⟩, fun hs => ?_⟩
  refine ⟨fun hg => by simp [vrf_coin_flip_settle, hg, hs],
    fun hg => by simp [vrf_dice_roll_settle, hg, hs],
    fun hg => by simp [vrf_limbo_settle, hg, hs],
    fun hg => by simp [vrf_crash_settle, hg, hs],
    by simp [expire_vrf_request, hs], ?_, ?_, ?_, ?_,
    by simp [commit, expire_vrf_request, hs]⟩
  · by_cases hg : s.req.game_type = GameType.CoinFlip <;>
      simp [commit, vrf_coin_flip_settle, hg, hs]
  · by_cases hg : s.req.game_type = GameType.DiceRoll <;>
      simp [commit, vrf_dice_roll_settle, hg, hs]
  · by_cases hg : s.req.game_type = GameType.Limbo <;>
      simp [commit, vrf_limbo_settle, hg, hs]
  · by_cases hg : s.req.game_type = GameType.Crash <;>
      simp [commit, vrf_crash_settle, hg, hs]

/-- Witness for C1: on a record already `Settled`, both a repeated settle
and an expire fail with the state-precondition error. -/
theorem settle_expire_mutually_exclusive_witness :
    vrf_coin_flip_settle settled_coin_state (.value zero_randomness) 7
      = .error .VrfAlreadySettled ∧
    expire_vrf_request settled_coin_state 1000 7 = .error .VrfAlreadySettled :=
  ⟨((settle_expire_mutually_exclusive settled_coin_state settled_coin_state
      (.value zero_randomness) 7 1000).2.2.2.2.2 (by decide)).1 (by decide),
   ((settle_expire_mutually_exclusive settled_coin_state settled_coin_state
      (.value zero_randomness) 7 1000).2.2.2.2.2 (by decide)).2.2.2.2.1⟩

/-- C7: `expire_vrf_request` succeeds only on a `Pending` request at least
300 slots old; it then refunds exactly the original stake to the player and
marks the record `Expired`; an early attempt fails with the state error
`VrfNotExpired` and, the transaction aborting, changes nothing. -/
theorem expire_liveness_and_refund (s t : SettleState) (slot ts : Nat) :
    (expire_vrf_request s slot ts = .ok t →
       s.req.status = VrfStatus.Pending ∧
       s.req.request_slot ≤ slot ∧ 300 ≤ slot - s.req.request_slot ∧
       t.req.status = VrfStatus.Expired ∧
       t.player_lamports = s.player_lamports + s.req.amount ∧
       t.house_lamports = s.house_lamports - s.req.amount ∧
       t.house = s.house) ∧
    (s.req.status = VrfStatus.Pending → s.req.request_slot ≤ slot →
     slot - s.req.request_slot < 300 →
       expire_vrf_request s slot ts = .error .VrfNotExpired ∧
       commit s (expire_vrf_request s slot ts) = s) := by
  constructor
  · intro h
    obtain ⟨h1, h2, h3, h4, h5, h6, h7, h8, h9⟩ := expire_ok_status h
    exact ⟨h1, h3, h4, h2, h8, h7, h5⟩
  · intro h1 h2 h3
    have herr : expire_vrf_request s slot ts = .error .VrfNotExpired := by
      simp only [expire_vrf_request]
      rw [if_neg (by simp [h1]), if_neg (by omega), if_pos h3]
    exact ⟨herr, by simp [commit, herr]⟩

/-- Witness for C7: an expire at slot 300 (200 slots after creation) fails
with `VrfNotExpired`; an expire at slot 400 succeeds, refunds the 10,000
stake and marks the record `Expired`. -/
theorem expire_liveness_and_refund_witness :
    expire_vrf_request pending_coin_state 300 5 = .error .VrfNotExpired ∧
    (expire_vrf_request pending_coin_state 400 5
        = .ok (commit pending_coin_state (expire_vrf_request pending_coin_state 400 5)) →
      (commit pending_coin_state
          (expire_vrf_request pending_coin_state 400 5)).player_lamports
        = pending_coin_state.player_lamports + pending_coin_state.req.amount) :=
  ⟨((expire_liveness_and_refund pending_coin_state pending_coin_state 300 5).2
      (by decide) (by decide) (by decide)).1,
   fun h => ((expire_liveness_and_refund pending_coin_state _ 400 5).1 h).2.2.2.2.1⟩

/-- C8: with the oracle value unavailable (`notReady`) or unparseable
(`invalid`) at settle time, the settle fails with a retryable error and,
the transaction aborting, the request stays `Pending` with all fields
intact, the pool counters are unmodified and no funds move. -/
theorem settle_randomness_not_ready (s : SettleState) (ts : Nat)
    (hg : s.req.game_type = GameType.CoinFlip) (hs : s.req.status = VrfStatus.Pending) :
    vrf_coin_flip_settle s .notReady ts = .error .VrfRandomnessNotReady ∧
    vrf_coin_flip_settle s .invalid ts = .error .VrfInvalidRandomness ∧
    commit s (vrf_coin_flip_settle s .notReady ts) = s ∧
    commit s (vrf_coin_flip_settle s .invalid ts) = s := by
  refine ⟨?_, ?_, ?_, ?_⟩ <;> simp [vrf_coin_flip_settle, commit, hg, hs]

/-- Witness for C8: the pending Scenario A request settles to a retryable
error on a not-ready oracle and is left untouched. -/
theorem settle_randomness_not_ready_witness :
    vrf_coin_flip_settle pending_coin_state .notReady 6 = .error .VrfRandomnessNotReady ∧
    commit pending_coin_state (vrf_coin_flip_settle pending_coin_state .notReady 6)
      = pending_coin_state :=
  ⟨(settle_randomness_not_ready pending_coin_state 6 (by decide) (by decide)).1,
   (settle_randomness_not_ready pending_coin_state 6 (by decide) (by decide)).2.2.1⟩

/-- For inputs whose `u128` product does not saturate, `calculate_payout`
equals the clamped-gross formula, and its result always fits in a `u64`. -/
theorem calculate_payout_eq_min (a m e : Nat) (ham : a * m ≤ u128Max) (he : e ≤ 10000) :
    calculate_payout a m e
      = min (a * m / 100) u64Max - min (a * m / 100) u64Max * e / 10000 ∧
    calculate_payout a m e ≤ u64Max := by
  have hG : min (a * m) u128Max = a * m := Nat.min_eq_left ham
  have hgross : (if u64Max < a * m / 100 then u64Max else a * m / 100)
      = min (a * m / 100) u64Max := by
    rcases le_or_lt (a * m / 100) u64Max with h | h
    · rw [if_neg (by omega), Nat.min_eq_left h]
    · rw [if_pos h, Nat.min_eq_right (le_of_lt h)]
  have hGle : min (a * m / 100) u64Max ≤ u64Max := Nat.min_le_right _ _
  have h2 : min (a * m / 100) u64Max * e ≤ u128Max := by
    have h3 : min (a * m / 100) u64Max * e ≤ u64Max * 10000 := Nat.mul_le_mul hGle he
    have h4 : u64Max * 10000 ≤ u128Max := by norm_num [u64Max, u128Max]
    omega
  have hEG : min (a * m / 100) u64Max * e / 10000 ≤ min (a * m / 100) u64Max := by
    have h3 : min (a * m / 100) u64Max * e ≤ min (a * m / 100) u64Max * 10000 :=
      Nat.mul_le_mul_left _ he
    have h4 : min (a * m / 100) u64Max * e / 10000
        ≤ min (a * m / 100) u64Max * 10000 / 10000 := Nat.div_le_div_right h3
    have h5 : min (a * m / 100) u64Max * 10000 / 10000 = min (a * m / 100) u64Max := by
      omega
    omega
  simp only [calculate_payout, hG, hgross, Nat.min_eq_left h2]
  rw [if_neg (by omega)]
  exact ⟨rfl, by omega⟩

/-- C2 counterexample: for stake `u64::MAX`, multiplier 200 and edge 0 the
gross value `floor(stake*200/100)` is not representable in the 64-bit
output width, yet `calculate_payout` returns the clamp `u64::MAX` — it is a
total function that clamps instead of raising an arithmetic error. -/
theorem calculate_payout_no_arith_error :
    u64Max < u64Max * 200 / 100 ∧ calculate_payout u64Max 200 0 = u64Max := by decide

/-- C2 amended: the payout computation never fails and never wraps;
instead it clamps.  The gross is computed in 128-bit arithmetic, capped at
`u64::MAX` when narrowed, the edge cut is taken from the capped gross, and
the result always fits in 64 bits. -/
theorem calculate_payout_saturates (a m e : Nat) (ha : a ≤ u64Max) (hm : m ≤ 65535)
    (he : e ≤ 10000) :
    calculate_payout a m e
      = min (a * m / 100) u64Max - min (a * m / 100) u64Max * e / 10000 ∧
    calculate_payout a m e ≤ u64Max := by
  have ham : a * m ≤ u128Max := by
    have h1 : a * m ≤ u64Max * 65535 := Nat.mul_le_mul ha hm
    have h2 : u64Max * 65535 ≤ u128Max := by norm_num [u64Max, u128Max]
    omega
  exact calculate_payout_eq_min a m e ham he

/-- Witness for the amended C2: at the overflowing stake `u64::MAX` with a
100 bps edge the function returns the clamped-gross formula value. -/
theorem calculate_payout_saturates_witness :
    calculate_payout u64Max 200 100
      = min (u64Max * 200 / 100) u64Max - min (u64Max * 200 / 100) u64Max * 100 / 10000 ∧
    calculate_payout u64Max 200 100 ≤ u64Max :=
  calculate_payout_saturates u64Max 200 100 (Nat.le_refl _) (by norm_num) (by norm_num)

/-- C4: `calculate_payout` computes `gross = floor(stake*mult/100)` and
`net = gross - floor(gross*edge/10000)` in widened 128-bit arithmetic
whenever the gross fits the output width; concretely, stake 10,000 at
multiplier 2.00× and 100 bps edge gives gross 20,000, edge amount 200 and
net 19,800, and settling that winning coin flip against the Scenario A pool
of 1,000,000 leaves the pool counter at 990,200. -/
theorem payout_formula_and_scenario_a :
    (∀ a m e, a * m / 100 ≤ u64Max → e ≤ 10000 →
       calculate_payout a m e = a * m / 100 - a * m / 100 * e / 10000) ∧
    10000 * 200 / 100 = 20000 ∧ 20000 * 100 / 10000 = 200 ∧
    calculate_payout 10000 200 100 = 19800 ∧
    (commit pending_coin_state
        (vrf_coin_flip_settle pending_coin_state (.value zero_randomness) 10)).house.pool
      = 990200 := by
  refine ⟨?_, by norm_num, by norm_num, by decide, by decide⟩
  intro a m e hg he
  have ham : a * m ≤ u128Max := by
    have h1 := Nat.div_add_mod (a * m) 100
    have h2 : a * m % 100 < 100 := Nat.mod_lt _ (by norm_num)
    have h3 : 100 * u64Max + 99 ≤ u128Max := by norm_num [u64Max, u128Max]
    omega
  have h4 := (calculate_payout_eq_min a m e ham he).1
  rw [h4, Nat.min_eq_left hg]

/-- Witness for C4: the formula instantiated at the Scenario A bet. -/
theorem payout_formula_and_scenario_a_witness :
    calculate_payout 10000 200 100 = 10000 * 200 / 100 - 10000 * 200 / 100 * 100 / 10000 :=
  payout_formula_and_scenario_a.1 10000 200 100 (by norm_num [u64Max]) (by norm_num)

/-- C6: for every 32-bit raw word and edge up to 1000 bps, the continuous
outcome mappers keep the denominator of the inverse transform at least 100
(safely away from zero before the division) and return a multiplier
clamped into `[100, 10000]`. -/
theorem continuous_mapper_range (raw edge : Nat) (hraw : raw ≤ u32Max)
    (h_edge : edge ≤ 1000) :
    100 ≤ 10000 - raw * 9900 / u32Max ∧
    100 ≤ calculate_limbo_result raw edge ∧ calculate_limbo_result raw edge ≤ 10000 ∧
    100 ≤ calculate_crash_point raw edge ∧ calculate_crash_point raw edge ≤ 10000 := by
  have hn : raw * 9900 / u32Max ≤ 9900 := by
    have h1 : raw * 9900 ≤ u32Max * 9900 := Nat.mul_le_mul_right _ hraw
    have h2 : u32Max * 9900 / u32Max = 9900 := by norm_num [u32Max]
    have h3 : raw * 9900 / u32Max ≤ u32Max * 9900 / u32Max := Nat.div_le_div_right h1
    omega
  refine ⟨by omega, ?_, ?_, ?_, ?_⟩
  · simp only [calculate_limbo_result]
    split_ifs
    · norm_num
    · exact le_max_right _ _
  · simp only [calculate_limbo_result]
    split_ifs
    · norm_num
    · exact max_le (le_trans (min_le_right _ _) (by norm_num)) (by norm_num)
  · simp only [calculate_crash_point]
    split_ifs
    · norm_num
    · exact le_max_right _ _
  · simp only [calculate_crash_point]
    split_ifs
    · norm_num
    · exact max_le (le_trans (min_le_right _ _) (by norm_num)) (by norm_num)

/-- Witness for C6: the extreme raw word 0 with the maximal allowed edge
still lands inside the clamp band. -/
theorem continuous_mapper_range_witness :
    100 ≤ calculate_limbo_result 0 1000 ∧ calculate_crash_point 0 1000 ≤ 10000 :=
  ⟨(continuous_mapper_range 0 1000 (by norm_num [u32Max]) (by norm_num)).2.1,
   (continuous_mapper_range 0 1000 (by norm_num [u32Max]) (by norm_num)).2.2.2.2⟩

/-- C5: admission of a bet request is granted exactly when the stake meets
the minimum, respects the max-bet percentage cap and the worst-case payout
is covered by the pool; the three checks run in that order and fail with
`BetTooSmall`, `BetTooLarge` and `InsufficientLiquidity` respectively (a
failing request aborts, so no funds move).  A stake below the minimum is
rejected for any pool size.  Stated for the coin-flip and limbo request
handlers, whose worst-case payouts are `calculate_payout stake 200 edge`
and `stake * target / 100`. -/
theorem liquidity_guard_admission (house : House) (hl pl amount choice target slot ts : Nat)
    (hchoice : choice ≤ 1) (htl : 101 ≤ target) (hth : target ≤ 10000) :
    (amount < house.min_bet →
       vrf_coin_flip_request house hl pl amount choice slot ts = .error .BetTooSmall ∧
       vrf_limbo_request house hl pl amount target slot ts = .error .BetTooSmall) ∧
    (house.pool * house.max_bet_percent ≤ u64Max → house.min_bet ≤ amount →
       (house.pool * house.max_bet_percent / 100 < amount →
          vrf_coin_flip_request house hl pl amount choice slot ts = .error .BetTooLarge ∧
          vrf_limbo_request house hl pl amount target slot ts = .error .BetTooLarge) ∧
       (amount ≤ house.pool * house.max_bet_percent / 100 →
          (house.pool < calculate_payout amount 200 house.house_edge_bps →
             vrf_coin_flip_request house hl pl amount choice slot ts
               = .error .InsufficientLiquidity) ∧
          (house.pool < amount * target / 100 →
             vrf_limbo_request house hl pl amount target slot ts
               = .error .InsufficientLiquidity))) ∧
    (house.pool * house.max_bet_percent ≤ u64Max → amount ≤ pl →
     house.total_games + 1 ≤ u64Max → house.total_volume + amount ≤ u64Max →
       ((∃ o, vrf_coin_flip_request house hl pl amount choice slot ts = .ok o) ↔
          house.min_bet ≤ amount ∧ amount ≤ house.pool * house.max_bet_percent / 100 ∧
          calculate_payout amount 200 house.house_edge_bps ≤ house.pool) ∧
       ((∃ o, vrf_limbo_request house hl pl amount target slot ts = .ok o) ↔
          house.min_bet ≤ amount ∧ amount ≤ house.pool * house.max_bet_percent / 100 ∧
          amount * target / 100 ≤ house.pool)) := by
  have hc1 : ¬ 1 < choice := by omega
  have hc2 : ¬ (target < 101 ∨ 10000 < target) := by omega
  refine ⟨fun hlt => ?_,
    fun hmul hmin => ⟨fun hbig => ?_, fun hle => ⟨fun hliq => ?_, fun hliq => ?_⟩⟩,
    fun hmul hpl hg1 hg2 => ⟨?_, ?_⟩⟩
  · exact ⟨by simp only [vrf_coin_flip_request]; rw [if_neg hc1, if_pos hlt],
           by simp only [vrf_limbo_request]; rw [if_neg hc2, if_pos hlt]⟩
  · constructor
    · simp only [vrf_coin_flip_request]
      rw [if_neg hc1, if_neg (by omega), if_neg (by omega), if_pos hbig]
    · simp only [vrf_limbo_request]
      rw [if_neg hc2, if_neg (by omega), if_neg (by omega), if_pos hbig]
  · simp only [vrf_coin_flip_request]
    rw [if_neg hc1, if_neg (by omega), if_neg (by omega), if_neg (by omega), if_pos hliq]
  · simp only [vrf_limbo_request]
    rw [if_neg hc2, if_neg (by omega), if_neg (by omega), if_neg (by omega), if_pos hliq]
  · constructor
    · rintro ⟨o, ho⟩
      have hA : house.min_bet ≤ amount := by
        by_contra hA
        push_neg at hA
        rw [show vrf_coin_flip_request house hl pl amount choice slot ts
              = .error .BetTooSmall by
            simp only [vrf_coin_flip_request]; rw [if_neg hc1, if_pos hA]] at ho
        exact Except.noConfusion ho
      have hB : amount ≤ house.pool * house.max_bet_percent / 100 := by
        by_contra hB
        push_neg at hB
        rw [show vrf_coin_flip_request house hl pl amount choice slot ts
              = .error .BetTooLarge by
            simp only [vrf_coin_flip_request]
            rw [if_neg hc1, if_neg (by omega), if_neg (by omega), if_pos hB]] at ho
        exact Except.noConfusion ho
      have hC : calculate_payout amount 200 house.house_edge_bps ≤ house.pool := by
        by_contra hC
        push_neg at hC
        rw [show vrf_coin_flip_request house hl pl amount choice slot ts
              = .error .InsufficientLiquidity by
            simp only [vrf_coin_flip_request]
            rw [if_neg hc1, if_neg (by omega), if_neg (by omega), if_neg (by omega),
              if_pos hC]] at ho
        exact Except.noConfusion ho
      exact ⟨hA, hB, hC⟩
    · rintro ⟨hA, hB, hC⟩
      refine ⟨request_new_state house hl pl amount slot ts GameType.CoinFlip choice 0, ?_⟩
      simp only [vrf_coin_flip_request]
      rw [if_neg hc1, if_neg (by omega), if_neg (by omega), if_neg (by omega),
        if_neg (by omega), if_neg (by omega), if_neg (by omega), if_neg (by omega)]
  · constructor
    · rintro ⟨o, ho⟩
      have hA : house.min_bet ≤ amount := by
        by_contra hA
        push_neg at hA
        rw [show vrf_limbo_request house hl pl amount target slot ts
              = .error .BetTooSmall by
            simp only [vrf_limbo_request]; rw [if_neg hc2, if_pos hA]] at ho
        exact Except.noConfusion ho
      have hB : amount ≤ house.pool * house.max_bet_percent / 100 := by
        by_contra hB
        push_neg at hB
        rw [show vrf_limbo_request house hl pl amount target slot ts
              = .error .BetTooLarge by
            simp only [vrf_limbo_request]
            rw [if_neg hc2, if_neg (by omega), if_neg (by omega), if_pos hB]] at ho
        exact Except.noConfusion ho
      have hC : amount * target / 100 ≤ house.pool := by
        by_contra hC
        push_neg at hC
        rw [show vrf_limbo_request house hl pl amount target slot ts
              = .error .InsufficientLiquidity by
            simp only [vrf_limbo_request]
            rw [if_neg hc2, if_neg (by omega), if_neg (by omega), if_neg (by omega),
              if_pos hC]] at ho
        exact Except.noConfusion ho
      exact ⟨hA, hB, hC⟩
    · rintro ⟨hA, hB, hC⟩
      refine ⟨request_new_state house hl pl amount slot ts GameType.Limbo 0 target, ?_⟩
      simp only [vrf_limbo_request]
      rw [if_neg hc2, if_neg (by omega), if_neg (by omega), if_neg (by omega),
        if_neg (by omega), if_neg (by omega), if_neg (by omega), if_neg (by omega)]

/-- Witness for C5: against the Scenario A pool, a 500-lamport stake is
below the 1,000 minimum and is rejected with `BetTooSmall`, while the
10,000 stake passes all three checks and goes through. -/
theorem liquidity_guard_admission_witness :
    vrf_coin_flip_request pending_coin_state.house 2000000 500000 500 0 50 1
      = .error .BetTooSmall ∧
    (∃ o, vrf_coin_flip_request pending_coin_state.house 2000000 500000 10000 0 50 1
      = .ok o) :=
  ⟨((liquidity_guard_admission pending_coin_state.house 2000000 500000 500 0 200 50 1
      (by decide) (by decide) (by decide)).1 (by decide)).1,
   ((liquidity_guard_admission pending_coin_state.house 2000000 500000 10000 0 200 50 1
      (by decide) (by decide) (by decide)).2.2 (by decide) (by decide) (by decide)
      (by decide)).1.mpr ⟨by decide, by decide, by decide⟩⟩

/-- With the account constraints satisfied and a revealed random value, the
coin-flip settle is exactly the shared settlement tail applied to the flip
outcome. -/
theorem coin_settle_unfold {s : SettleState} {bs : List Nat} {ts : Nat}
    (hg : s.req.game_type = GameType.CoinFlip) (hs : s.req.status = VrfStatus.Pending) :
    vrf_coin_flip_settle s (.value bs) ts
      = apply_settle_outcome s (bs.headD 0 % 2 == s.req.choice)
          (if bs.headD 0 % 2 == s.req.choice
           then calculate_payout s.req.amount 200 s.house.house_edge_bps else 0)
          (bs.headD 0 % 2) ts := by
  simp only [vrf_coin_flip_settle]
  rw [if_neg (by simp [hg]), if_neg (by simp [hs])]

/-- The shared settlement tail succeeds when every one of its guards
passes. -/
theorem apply_settle_outcome_ok_of (s : SettleState) (won : Bool) (payout result ts : Nat)
    (k1 : ¬(won = true ∧ 0 < payout ∧ s.house_lamports < payout))
    (k2 : ¬(won = true ∧ u64Max < s.house.total_payout + payout))
    (k3 : ¬(won = true ∧ payout < s.req.amount))
    (k4 : ¬(won = true ∧ s.house.pool < payout - s.req.amount))
    (k5 : ¬(won = false ∧ u64Max < s.house.pool + s.req.amount))
    (k6 : ¬(u64Max < s.stats.total_games + 1))
    (k7 : ¬(u64Max < s.stats.total_wagered + s.req.amount))
    (k8 : ¬(won = true ∧ u64Max < s.stats.total_won + payout))
    (k9 : ¬(won = true ∧ u64Max < s.stats.wins + 1))
    (k10 : ¬(won = false ∧ u64Max < s.stats.losses + 1)) :
    apply_settle_outcome s won payout result ts
      = .ok (settle_new_state s won payout result ts) := by
  simp only [apply_settle_outcome]
  rw [if_neg k1, if_neg k2, if_neg k3, if_neg k4, if_neg k5, if_neg k6, if_neg k7,
    if_neg k8, if_neg k9, if_neg k10]

/-- A successful run of the settlement tail implies that its pool-counter
guard passed: on a win, the net loss fit in the pool. -/
theorem apply_settle_outcome_ok_pool {s : SettleState} {won : Bool}
    {payout result ts : Nat} {t : SettleState}
    (h : apply_settle_outcome s won payout result ts = .ok t) :
    ¬(won = true ∧ s.house.pool < payout - s.req.amount) := by
  simp only [apply_settle_outcome] at h
  repeat' split at h
  all_goals first | exact Except.noConfusion h | assumption

/-- A pending coin-flip bet of 10,000 whose pool counter has meanwhile
dropped to 15,000 — less than the 19,800 the bet pays on a win. -/
def c3_state : SettleState :=
  { house := { pool := 15000, house_edge_bps := 100, min_bet := 1000, max_bet_percent := 2,
               total_games := 9, total_volume := 90000, total_payout := 40000 },
    req := { game_type := .CoinFlip, amount := 10000, choice := 0, target_multiplier := 0,
             status := .Pending, created_at := 1, settled_at := 0, result := 0,
             payout := 0, game_index := 8, request_slot := 100 },
    stats := { total_games := 0, total_wagered := 0, total_won := 0, wins := 0,
               losses := 0, pvp_games := 0, pvp_wins := 0 },
    house_lamports := 100000, player_lamports := 0 }

/-- C3 counterexample: with the pool counter at 15,000 and a pending stake
of 10,000, the winning coin-flip settle owes 19,800 — more than the entire
current pool — yet it succeeds and pays: no worst-case-payout liquidity
check is re-evaluated at settle time (only the net loss 9,800 is checked,
as part of the pool-counter update). -/
theorem settle_no_liquidity_recheck_counterexample :
    calculate_payout c3_state.req.amount 200 c3_state.house.house_edge_bps = 19800 ∧
    c3_state.house.pool < 19800 ∧
    commit c3_state (vrf_coin_flip_settle c3_state (.value zero_randomness) 9)
      = settle_new_state c3_state true 19800 0 9 ∧
    (commit c3_state (vrf_coin_flip_settle c3_state (.value zero_randomness) 9)).req.status
      = VrfStatus.Settled := by decide

/-- C3 amended: the settle instruction re-runs no explicit liquidity check;
its only settle-time solvency guard is the checked pool-counter update, so
(side conditions on lamports and counters aside) a winning coin-flip settle
succeeds exactly when the net loss `payout - stake` fits in the current
pool — in particular it also succeeds when the full payout exceeds the
pool. -/
theorem settle_net_loss_guard (s : SettleState) (bs : List Nat) (ts : Nat)
    (hg : s.req.game_type = GameType.CoinFlip) (hs : s.req.status = VrfStatus.Pending)
    (hw : bs.headD 0 % 2 = s.req.choice)
    (hlam : calculate_payout s.req.amount 200 s.house.house_edge_bps ≤ s.house_lamports)
    (hamt : s.req.amount ≤ calculate_payout s.req.amount 200 s.house.house_edge_bps)
    (htp : s.house.total_payout + calculate_payout s.req.amount 200 s.house.house_edge_bps
             ≤ u64Max)
    (hq1 : s.stats.total_games + 1 ≤ u64Max)
    (hq2 : s.stats.total_wagered + s.req.amount ≤ u64Max)
    (hq3 : s.stats.total_won + calculate_payout s.req.amount 200 s.house.house_edge_bps
             ≤ u64Max)
    (hq4 : s.stats.wins + 1 ≤ u64Max) :
    (∃ t, vrf_coin_flip_settle s (.value bs) ts = .ok t) ↔
      calculate_payout s.req.amount 200 s.house.house_edge_bps - s.req.amount
        ≤ s.house.pool := by
  have hwb : (bs.headD 0 % 2 == s.req.choice) = true := beq_iff_eq.mpr hw
  rw [coin_settle_unfold hg hs, if_pos hwb, hwb]
  constructor
  · rintro ⟨t, ht⟩
    by_contra hpool
    push_neg at hpool
    exact apply_settle_outcome_ok_pool ht ⟨rfl, hpool⟩
  · intro hpool
    refine ⟨settle_new_state s true
      (calculate_payout s.req.amount 200 s.house.house_edge_bps) (bs.headD 0 % 2) ts, ?_⟩
    refine apply_settle_outcome_ok_of s true _ _ ts ?_ ?_ ?_ ?_ ?_ ?_ ?_ ?_ ?_ ?_
    · exact fun hco => absurd hco.2.2 (by omega)
    · exact fun hco => absurd hco.2 (by omega)
    · exact fun hco => absurd hco.2 (by omega)
    · exact fun hco => absurd hco.2 (by omega)
    · exact fun hco => Bool.noConfusion hco.1
    · omega
    · omega
    · exact fun hco => absurd hco.2 (by omega)
    · exact fun hco => absurd hco.2 (by omega)
    · exact fun hco => Bool.noConfusion hco.1

/-- Witness for the amended C3: the 15,000-lamport pool cannot cover the
19,800 payout, but the 9,800 net loss fits, so the settle goes through. -/
theorem settle_net_loss_guard_witness :
    ∃ t, vrf_coin_flip_settle c3_state (.value zero_randomness) 9 = .ok t :=
  (settle_net_loss_guard c3_state zero_randomness 9 (by decide) (by decide) (by decide)
    (by decide) (by decide) (by decide) (by decide) (by decide) (by decide)
    (by decide)).mpr (by decide)

/-- C10: the pool counter (`house.pool`) is left unchanged by every VRF
request instruction and by `expire_vrf_request`: a request advances only
the games and volume counters while the stake arrives as lamports in the
house account, and an expire refunds lamports without touching the house
data at all; for a single bet, `house.pool` moves only at settlement —
plus the stake on a loss, minus `payout - stake` on a win. -/
theorem pool_counter_frame (house : House) (s : SettleState)
    (hl pl amount choice target slot ts : Nat) (o : RequestOut) (t : SettleState)
    (bs : List Nat) :
    (vrf_coin_flip_request house hl pl amount choice slot ts = .ok o →
       o.house.pool = house.pool ∧ o.house.total_games = house.total_games + 1 ∧
       o.house.total_volume = house.total_volume + amount ∧
       o.house.total_payout = house.total_payout ∧
       o.house_lamports = hl + amount ∧ o.player_lamports = pl - amount ∧
       o.req.status = VrfStatus.Pending) ∧
    (vrf_dice_roll_request house hl pl amount target slot ts = .ok o →
       o.house.pool = house.pool) ∧
    (vrf_limbo_request house hl pl amount target slot ts = .ok o →
       o.house.pool = house.pool) ∧
    (vrf_crash_request house hl pl amount target slot ts = .ok o →
       o.house.pool = house.pool) ∧
    (expire_vrf_request s slot ts = .ok t →
       t.house = s.house ∧ t.house_lamports = s.house_lamports - s.req.amount ∧
       t.player_lamports = s.player_lamports + s.req.amount) ∧
    (vrf_coin_flip_settle s (.value bs) ts = .ok t →
       t.house.pool
         = (if bs.headD 0 % 2 == s.req.choice
            then s.house.pool
              - (calculate_payout s.req.amount 200 s.house.house_edge_bps - s.req.amount)
            else s.house.pool + s.req.amount)) := by
  refine ⟨?_, ?_, ?_, ?_, ?_, ?_⟩
  · intro h
    simp only [vrf_coin_flip_request] at h
    repeat' split at h
    all_goals first
      | exact Except.noConfusion h
      | (injection h with h2; subst h2; exact ⟨rfl, rfl, rfl, rfl, rfl, rfl, rfl⟩)
  · intro h
    simp only [vrf_dice_roll_request] at h
    repeat' split at h
    all_goals first
      | exact Except.noConfusion h
      | (injection h with h2; subst h2; exact rfl)
  · intro h
    simp only [vrf_limbo_request] at h
    repeat' split at h
    all_goals first
      | exact Except.noConfusion h
      | (injection h with h2; subst h2; exact rfl)
  · intro h
    simp only [vrf_crash_request] at h
    repeat' split at h
    all_goals first
      | exact Except.noConfusion h
      | (injection h with h2; subst h2; exact rfl)
  · exact fun h => ⟨(expire_ok_status h).2.2.2.2.1,
      (expire_ok_status h).2.2.2.2.2.2.1, (expire_ok_status h).2.2.2.2.2.2.2.1⟩
  · intro h
    obtain ⟨-, -, ht⟩ := coin_settle_value_ok h
    subst ht
    by_cases hwx : bs.head?.getD 0 % 2 = s.req.choice <;>
      simp [settle_new_state, hwx]

/-- Fallback record for extracting the result of a concrete request. -/
def c10_fallback : RequestOut :=
  { house := pending_coin_state.house, req := pending_coin_state.req,
    house_lamports := 0, player_lamports := 0 }

/-- The concrete output of an accepted 10,000-lamport coin-flip request
against the Scenario A pool. -/
def c10_out : RequestOut :=
  match vrf_coin_flip_request pending_coin_state.house 2000000 500000 10000 0 50 1 with
  | .ok o => o
  | .error _ => c10_fallback

/-- Witness for C10: the accepted request leaves the pool counter exactly
where it was. -/
theorem pool_counter_frame_witness :
    c10_out.house.pool = pending_coin_state.house.pool :=
  ((pool_counter_frame pending_coin_state.house pending_coin_state 2000000 500000 10000 0
      200 50 1 c10_out pending_coin_state zero_randomness).1 (by decide)).1

/-- Peeling lemma for guard cascades: an if-then-error-else chain returns
`ok` exactly when the guard fails and the continuation returns `ok`. -/
theorem error_ite_ok {α : Type} {P : Prop} [Decidable P] {e : CasinoError}
    {r : Except CasinoError α} {d : α} :
    ((if P then Except.error e else r) = Except.ok d) ↔ (¬P ∧ r = Except.ok d) := by
  split_ifs with hP
  · simp [hP]
  · simp [hP]

/-- C9: seed derivation and mixing are pure and deterministic — the
embedding is parameterized by an arbitrary digest function, and for every
digest function and every successful `accept_challenge`, recomputing
`combine_seeds` from the recorded server seed, client seed and challenger
key and taking byte 0 mod 2 reproduces exactly the recorded outcome, while
the recorded server seed is exactly `generate_seed` of its recorded
inputs. -/
theorem provably_fair_replay (hashFn : List Nat → List Nat) (c : ChallengeCtx)
    (acceptor : Pubkey) (client_seed : List Nat) (slot ts : Nat) (d : ChallengeCtx)
    (h : accept_challenge hashFn c acceptor client_seed slot ts = .ok d) :
    (combine_seeds hashFn d.challenge.server_seed d.challenge.client_seed
        d.challenge.challenger).headD 0 % 2 = d.challenge.result ∧
    d.challenge.server_seed = generate_seed hashFn acceptor slot ts c.challenge_key := by
  unfold accept_challenge at h
  simp only [error_ite_ok] at h
  repeat' replace h := h.2
  injection h with h2
  subst h2
  exact ⟨rfl, rfl⟩

/-- A stand-in digest function for the replay witness (any function
works). -/
def c9_hash : List Nat → List Nat := fun l => List.replicate 32 (l.length % 256)

/-- A concrete open challenge ready to be accepted. -/
def c9_ctx : ChallengeCtx :=
  { challenge := { challenger := List.replicate 32 1,
                   acceptor := List.replicate 32 0,
                   amount := 100, choice := 0, status := .Open, result := 0,
                   winner := List.replicate 32 0, server_seed := [],
                   client_seed := [], created_at := 0, completed_at := 0 },
    challenge_key := List.replicate 32 7,
    house := { pool := 1000, house_edge_bps := 100, min_bet := 10, max_bet_percent := 2,
               total_games := 0, total_volume := 0, total_payout := 0 },
    challenger_stats := { total_games := 0, total_wagered := 0, total_won := 0, wins := 0,
                          losses := 0, pvp_games := 0, pvp_wins := 0 },
    acceptor_stats := { total_games := 0, total_wagered := 0, total_won := 0, wins := 0,
                        losses := 0, pvp_games := 0, pvp_wins := 0 },
    challenge_lamports := 100, house_lamports := 0,
    challenger_lamports := 0, acceptor_lamports := 100 }

/-- The acceptor key for the replay witness. -/
def c9_acceptor : Pubkey := List.replicate 32 2

/-- The client seed for the replay witness. -/
def c9_client : List Nat := List.replicate 32 3

/-- The completed challenge produced by the witness acceptance. -/
def c9_out : ChallengeCtx :=
  match accept_challenge c9_hash c9_ctx c9_acceptor c9_client 3 9 with
  | .ok d => d
  | .error _ => c9_ctx

/-- Witness for C9: replaying the seed mixing on the recorded seeds of the
concrete completed challenge reproduces its recorded outcome. -/
theorem provably_fair_replay_witness :
    (combine_seeds c9_hash c9_out.challenge.server_seed c9_out.challenge.client_seed
        c9_out.challenge.challenger).headD 0 % 2 = c9_out.challenge.result :=
  (provably_fair_replay c9_hash c9_ctx c9_acceptor c9_client 3 9 c9_out (by decide)).1

end AgentCasino
